import Mathlib

/-
Verification of the TIMEFOLD strategy-engine app (src/timefold.py) against its
natural-language specification.

The program is a single-file Streamlit script.  The embedding below models:
  - parsed JSON values as records whose fields are `Option`-valued (a key that
    is absent from the Python dict is `none`; we conflate an absent key with a
    JSON null, which no modelled code path distinguishes);
  - Python exceptions (KeyError, TypeError, IndexError, backend exceptions) as
    an explicit `Except` error channel;
  - the Streamlit session state (`st.session_state`) as an explicit record.
    A Streamlit script run that raises an uncaught exception aborts, but the
    session state persists across runs, so a script block is modelled as a
    function returning the updated state together with the list of messages
    reported via st.error / st.warning and an optional uncaught exception.
  - the Gemini backend as an oracle argument: each gateway call receives a
    `GatewayResponse` that is either an exception raised by
    generate_content / json.loads (backend failure or malformed JSON), or the
    successfully parsed JSON value.  The code performs no schema validation of
    its own after json.loads, and the model reflects that.
Button handlers are modelled as separate functions, since within one Streamlit
run at most one button evaluates to True; the body of the SIMULATING stage
before any button block (timefold.py lines 252-275) is modelled as
`simulatingBlockCore`.  Lines 277-320 of that stage mutate no session state
outside the Explore-This-Path handler (line 306), which is modelled as
`exploreHandler`.
-/

namespace Timefold

/-- Python exceptions that the modelled code paths can raise. -/
inductive PyErr where
  | keyError (key : String)
  | typeError
  | indexError
  | backendFailure (msg : String)
deriving DecidableEq

/-- A parsed JSON object as used for both history entries and scenario dicts.
Python stores both in plain dicts; a history entry is either the seed dict
(title and description only, timefold.py lines 200/204/208/217) or a scenario
dict appended wholesale (line 307).  A field is `none` when the key is absent. -/
structure Entry where
  title : Option String
  description : Option String
  id : Option String
  probability : Option Int
  time_horizon : Option String
  risk_level : Option String
  impact_score : Option Int
  data_confidence : Option Int
  assumption_stability : Option Int
  reasoning_trace : Option String
deriving DecidableEq

/-- One element of the parsed council JSON list (timefold.py lines 58-62;
no validation is applied after json.loads, so every field may be absent). -/
structure AgentEntry where
  name : Option String
  role : Option String
  stance : Option String
  avatar : Option String
deriving DecidableEq

/-- The parsed council JSON object (timefold.py lines 64-65, via json.loads at
line 96; the `agents` key may be absent since nothing validates it). -/
structure CouncilValue where
  agents : Option (List AgentEntry)
deriving DecidableEq

/-- The parsed simulation JSON object (timefold.py lines 79-82, via json.loads
at line 123; keys may be absent since nothing validates the parsed value). -/
structure SimValue where
  scenarios : Option (List Entry)
  synthesis : Option String
  black_swan_alert : Option String
deriving DecidableEq

/-- The workflow stage held in st.session_state.stage (timefold.py line 185). -/
inductive Stage where
  | INPUT
  | RECRUITING
  | SIMULATING
deriving DecidableEq

/-- The Streamlit session state (timefold.py lines 185-188).  The uploaded
image and the reasoning toggle are per-run widget values, not session state. -/
structure SessionState where
  stage : Stage
  history : List Entry
  agents : Option CouncilValue
  simulation : Option SimValue
deriving DecidableEq

/-- A graphviz node as emitted by dot.node in draw_advanced_tree. -/
structure DotNode where
  id : String
  label : String
  fillcolor : String
deriving DecidableEq

/-- A graphviz edge as emitted by dot.edge in draw_advanced_tree
(an edge without an explicit label is recorded with label ""). -/
structure DotEdge where
  src : String
  dst : String
  label : String
deriving DecidableEq

/-- The graph structure built by draw_advanced_tree: its nodes and edges. -/
structure DotGraph where
  nodes : List DotNode
  edges : List DotEdge
deriving DecidableEq

/-- One element of the `inputs` list passed to model.generate_content:
either a text part or the uploaded image part. -/
inductive ReqInput where
  | text (s : String)
  | imagePart
deriving DecidableEq

/-- Outcome of a generate_content + json.loads round trip for the simulation
call: `failure` is any exception raised by the backend call or by json.loads
(backend error or malformed JSON); `json` is the successfully parsed value.
Note that a parsed value which does not match the declared schema is still
`json` - the code never validates the parsed value. -/
inductive GatewayResponse where
  | failure (msg : String)
  | json (v : SimValue)
deriving DecidableEq

/-- Same oracle for the recruitment call (timefold.py lines 95-96). -/
inductive RecruitResponse where
  | failure (msg : String)
  | json (v : CouncilValue)
deriving DecidableEq

/-- Char-list prefix test by structural recursion. -/
def charsLead : List Char → List Char → Bool
  | [], _ => true
  | _ :: _, [] => false
  | a :: as, b :: bs => a == b && charsLead as bs

/-- Char-list infix test by structural recursion. -/
def charsSub : List Char → List Char → Bool
  | n, [] => charsLead n []
  | n, b :: bs => charsLead n (b :: bs) || charsSub n bs

/-- Python substring test `needle in hay`. -/
def strContains (hay needle : String) : Bool :=
  charsSub needle.data hay.data

/-- Python str.lower() (the modelled strings are ASCII, where it agrees with
the per-character lowering). -/
def pyLower (s : String) : String :=
  ⟨s.data.map Char.toLower⟩

/-- The recruitment prompt f-string (timefold.py line 89). -/
def recruitmentPrompt (context : String) : String :=
  "MISSION: Recruit 3 distinct strategic experts to analyze: " ++ context ++
    ". RULES: No honorifics. Diverse perspectives."

/-- The `inputs` list sent by recruit_agents (timefold.py lines 90-93):
the prompt, then - if an image is attached - the image part and the visual
analysis instruction. -/
def recruitmentInputs (context : String) (hasImage : Bool) : List ReqInput :=
  [ReqInput.text (recruitmentPrompt context)] ++
    (if hasImage then [ReqInput.imagePart, ReqInput.text "Analyze visual data."] else [])

/-- recruit_agents (timefold.py lines 84-96).  There is no try/except: a
backend or json.loads exception propagates out uncaught.  A successfully
parsed value is returned as-is - the function performs no validation of the
agent count or of any field.  The second component records the inputs sent. -/
def recruit_agents (context : String) (hasImage : Bool) (resp : RecruitResponse) :
    Except PyErr CouncilValue × List ReqInput :=
  (match resp with
    | RecruitResponse.failure msg => Except.error (PyErr.backendFailure msg)
    | RecruitResponse.json v => Except.ok v,
   recruitmentInputs context hasImage)

/-- The chaos instruction added to the simulation prompt when inject_chaos is
set (timefold.py lines 106-108). -/
def chaosPromptStr (inject_chaos : Bool) : String :=
  if inject_chaos then
    "⚠️ INJECT A BLACK SWAN EVENT: Introduce a low-probability, high-impact disruption into the scenarios."
  else ""

/-- The simulation prompt f-string (timefold.py lines 110-116), with the
surrounding triple-quoted whitespace reproduced. -/
def simulationPrompt (context : String) (agents_desc : String) (chaos_prompt : String) : String :=
  "\n    You are TIMEFOLD, an Advanced Strategic Foresight Engine.\n    ACTIVE COUNCIL: "
    ++ agents_desc
    ++ "\n    TASK: Simulate a debate, generate 3 divergent future scenarios. Include reasoning traces and confidence metrics.\n    "
    ++ chaos_prompt
    ++ "\n    CURRENT STATE: "
    ++ context
    ++ "\n    "

/-- One line of the council description (timefold.py line 104); each dict
access can raise KeyError, and this happens outside the try block. -/
def agentLine (a : AgentEntry) : Except PyErr String :=
  match a.name with
  | none => Except.error (PyErr.keyError "name")
  | some n =>
    match a.role with
    | none => Except.error (PyErr.keyError "role")
    | some r =>
      match a.stance with
      | none => Except.error (PyErr.keyError "stance")
      | some st0 => Except.ok ("- " ++ n ++ " (" ++ r ++ "): " ++ st0)

/-- The list-comprehension of timefold.py line 104. -/
def agentLines : List AgentEntry → Except PyErr (List String)
  | [] => Except.ok []
  | a :: rest =>
    match agentLine a with
    | Except.error e => Except.error e
    | Except.ok line =>
      match agentLines rest with
      | Except.error e => Except.error e
      | Except.ok ls => Except.ok (line :: ls)

/-- agents_desc (timefold.py line 104): `agents` may be None (TypeError) or
lack the "agents" key (KeyError); both raise outside the try block. -/
def agentsDesc (agents : Option CouncilValue) : Except PyErr String :=
  match agents with
  | none => Except.error PyErr.typeError
  | some c =>
    match c.agents with
    | none => Except.error (PyErr.keyError "agents")
    | some l =>
      match agentLines l with
      | Except.error e => Except.error e
      | Except.ok ls => Except.ok (String.intercalate "\n" ls)

/-- Result of one run_simulation call: the returned value (None on a caught
failure), the messages reported via st.error, the prompt that was sent, and
the full inputs list sent to generate_content. -/
structure SimCall where
  result : Option SimValue
  reported : List String
  prompt : String
  inputs : List ReqInput
deriving DecidableEq

/-- The `inputs` list of the simulation call (timefold.py lines 118-119). -/
def simulationInputs (prompt : String) (hasImage : Bool) : List ReqInput :=
  [ReqInput.text prompt] ++
    (if hasImage then [ReqInput.imagePart, ReqInput.text "Incorporate visual insights."] else [])

/-- run_simulation (timefold.py lines 98-126).  The agents_desc construction
(line 104) happens before the try block, so its exceptions propagate.  The
try block covers generate_content and json.loads: any exception there is
reported via st.error and None is returned (lines 121-126).  A successfully
parsed JSON value is returned unvalidated. -/
def run_simulation (context : String) (agents : Option CouncilValue) (hasImage : Bool)
    (inject_chaos : Bool) (resp : GatewayResponse) : Except PyErr SimCall :=
  match agentsDesc agents with
  | Except.error e => Except.error e
  | Except.ok desc =>
    let prompt := simulationPrompt context desc (chaosPromptStr inject_chaos)
    let inputs := simulationInputs prompt hasImage
    match resp with
    | GatewayResponse.failure msg =>
      Except.ok ⟨none, ["Simulation Error: " ++ msg], prompt, inputs⟩
    | GatewayResponse.json v => Except.ok ⟨some v, [], prompt, inputs⟩

/-- One report section (timefold.py lines 131-138).  The title and
description keys are read unconditionally; the reasoning line is guarded by
key presence; the metrics line is guarded only by the risk_level key and then
reads the probability key unconditionally. -/
def reportStep (i : Nat) (step : Entry) : Except PyErr String :=
  match step.title with
  | none => Except.error (PyErr.keyError "title")
  | some t =>
    match step.description with
    | none => Except.error (PyErr.keyError "description")
    | some d =>
      let base := "## Step " ++ toString (i + 1) ++ ": " ++ t ++ "\n" ++ "_" ++ d ++ "_\n\n"
      let base := base ++
        (match step.reasoning_trace with
          | some rt => "> **Reasoning:** " ++ rt ++ "\n\n"
          | none => "")
      match step.risk_level with
      | none => Except.ok (base ++ "---\n")
      | some rl =>
        match step.probability with
        | none => Except.error (PyErr.keyError "probability")
        | some p =>
          Except.ok (base ++ "**Metrics:** Risk: " ++ rl ++ " | Prob: " ++ toString p ++ "%\n" ++ "---\n")

/-- The enumerate loop of generate_markdown_report (timefold.py line 131). -/
def reportLoop (i : Nat) : List Entry → Except PyErr String
  | [] => Except.ok ""
  | stp :: rest =>
    match reportStep i stp with
    | Except.error e => Except.error e
    | Except.ok sec =>
      match reportLoop (i + 1) rest with
      | Except.error e => Except.error e
      | Except.ok restS => Except.ok (sec ++ restS)

/-- generate_markdown_report (timefold.py lines 128-139).  The timestamp
produced by time.strftime is passed in as `ts`. -/
def generate_markdown_report (history : List Entry) (ts : String) : Except PyErr String :=
  match reportLoop 0 history with
  | Except.error e => Except.error e
  | Except.ok body =>
    Except.ok ("# TIMEFOLD STRATEGIC REPORT\n" ++ "**Date:** " ++ ts ++ "\n\n" ++ body)

/-- The history loop of draw_advanced_tree (timefold.py lines 147-151): one
box node per history entry (reading its title key), and for i > 0 an edge
from the previous node. -/
def histLoop (i : Nat) : List Entry → Except PyErr (List DotNode × List DotEdge)
  | [] => Except.ok ([], [])
  | stp :: rest =>
    match stp.title with
    | none => Except.error (PyErr.keyError "title")
    | some t =>
      match histLoop (i + 1) rest with
      | Except.error e => Except.error e
      | Except.ok (ns, es) =>
        let nd : DotNode := ⟨"H_" ++ toString i, t, "#21262D"⟩
        Except.ok (nd :: ns,
          if i = 0 then es
          else DotEdge.mk ("H_" ++ toString (i - 1)) ("H_" ++ toString i) "" :: es)

/-- The risk-to-color conditional expression (timefold.py line 158), applied
to the already-lowercased risk string; each test is a Python substring test. -/
def optColor (risk : String) : String :=
  if strContains risk "critical" then "#8B0000"
  else if strContains risk "high" then "#B22222"
  else if strContains risk "low" then "#006400"
  else "#003366"

/-- The scenario node label f-string (timefold.py lines 160-162). -/
def optLabel (title time_horizon : String) (probability : Int) : String :=
  "<<TABLE BORDER=\"0\" CELLBORDER=\"0\" CELLSPACING=\"0\"><TR><TD><B>" ++ title
    ++ "</B></TD></TR>\n            <TR><TD><FONT POINT-SIZE=\"10\">" ++ time_horizon
    ++ "</FONT></TD></TR>\n            <TR><TD><FONT POINT-SIZE=\"10\">Prob: " ++ toString probability
    ++ "%</FONT></TD></TR></TABLE>>"

/-- One iteration of the scenario loop (timefold.py lines 155-165), with dict
accesses in source order: opt["id"], opt.get("risk_level", ""), then the
label keys title / time_horizon / probability, then opt["risk_level"] for the
edge label. -/
def drawOpt (last_id : String) (opt : Entry) : Except PyErr (DotNode × DotEdge) :=
  match opt.id with
  | none => Except.error (PyErr.keyError "id")
  | some sid =>
    let opt_id := "OPT_" ++ sid
    let risk := pyLower (opt.risk_level.getD "")
    let color := optColor risk
    match opt.title with
    | none => Except.error (PyErr.keyError "title")
    | some t =>
      match opt.time_horizon with
      | none => Except.error (PyErr.keyError "time_horizon")
      | some th =>
        match opt.probability with
        | none => Except.error (PyErr.keyError "probability")
        | some p =>
          match opt.risk_level with
          | none => Except.error (PyErr.keyError "risk_level")
          | some rl =>
            Except.ok (⟨opt_id, optLabel t th p, color⟩, ⟨last_id, opt_id, "Risk: " ++ rl⟩)

/-- The scenario loop of draw_advanced_tree (timefold.py lines 155-165). -/
def optLoop (last_id : String) : List Entry → Except PyErr (List DotNode × List DotEdge)
  | [] => Except.ok ([], [])
  | opt :: rest =>
    match drawOpt last_id opt with
    | Except.error e => Except.error e
    | Except.ok (n, e) =>
      match optLoop last_id rest with
      | Except.error err => Except.error err
      | Except.ok (ns, es) => Except.ok (n :: ns, e :: es)

/-- Python truthiness of the simulation dict: None is falsy, and a dict with
no keys is falsy; we represent the empty dict as the all-absent record. -/
def simFalsy (v : SimValue) : Bool :=
  v.scenarios.isNone && v.synthesis.isNone && v.black_swan_alert.isNone

/-- draw_advanced_tree (timefold.py lines 141-166).  last_id is computed with
Python integer arithmetic: for an empty history it is "H_-1".  The guard
`if options:` is Python truthiness of the options dict. -/
def draw_advanced_tree (history : List Entry) (options : Option SimValue) :
    Except PyErr DotGraph :=
  match histLoop 0 history with
  | Except.error e => Except.error e
  | Except.ok (hn, he) =>
    let last_id := "H_" ++ toString ((history.length : Int) - 1)
    match options with
    | none => Except.ok ⟨hn, he⟩
    | some sim =>
      if simFalsy sim then Except.ok ⟨hn, he⟩
      else
        match optLoop last_id (sim.scenarios.getD []) with
        | Except.error e => Except.error e
        | Except.ok (sn, se) => Except.ok ⟨hn ++ sn, he ++ se⟩

/-- The seed history entry appended at the INPUT stage
(timefold.py lines 200/204/208/217): a dict with only title and description. -/
def seedEntry (d : String) : Entry :=
  ⟨some "START", some d, none, none, none, none, none, none, none, none⟩

/-- The INITIALIZE SYSTEM button handler (timefold.py lines 214-221).
Python string truthiness: the empty string is falsy.  Returns the new state
and the list of warnings shown. -/
def systemInitHandler (userInput : String) (hasImage : Bool) (s : SessionState) :
    SessionState × List String :=
  if userInput != "" || hasImage then
    let inputText := if userInput != "" then userInput else "Analyze the uploaded visual data."
    ({ s with history := s.history ++ [seedEntry inputText], stage := Stage.RECRUITING }, [])
  else
    (s, ["Please enter text or upload an image."])

/-- One agent card of the RECRUITING stage (timefold.py lines 238-246): the
f-string reads avatar, name, role, stance, in that order; a missing key
raises KeyError.  The rendered markup is presentation only and not recorded. -/
def agentCard (a : AgentEntry) : Except PyErr Unit :=
  match a.avatar with
  | none => Except.error (PyErr.keyError "avatar")
  | some _ =>
    match a.name with
    | none => Except.error (PyErr.keyError "name")
    | some _ =>
      match a.role with
      | none => Except.error (PyErr.keyError "role")
      | some _ =>
        match a.stance with
        | none => Except.error (PyErr.keyError "stance")
        | some _ => Except.ok ()

/-- The card loop of the RECRUITING stage (timefold.py lines 235-246):
`cols = st.columns(3)` makes `cols[i]` raise IndexError for i >= 3; the
column is entered before the card reads any key. -/
def renderCouncilLoop : Nat → List AgentEntry → Except PyErr Unit
  | _, [] => Except.ok ()
  | i, a :: rest =>
    if i < 3 then
      match agentCard a with
      | Except.error e => Except.error e
      | Except.ok _ => renderCouncilLoop (i + 1) rest
    else Except.error PyErr.indexError

/-- The RECRUITING stage block (timefold.py lines 224-246): read the last
history entry description, call recruit_agents, store the parsed council
as-is, then render the cards.  Any uncaught exception is returned alongside
the state reached so far. -/
def recruitingBlock (s : SessionState) (hasImage : Bool) (resp : RecruitResponse) :
    SessionState × Option PyErr :=
  match s.history.getLast? with
  | none => (s, some PyErr.indexError)
  | some lastE =>
    match lastE.description with
    | none => (s, some (PyErr.keyError "description"))
    | some context =>
      match (recruit_agents context hasImage resp).1 with
      | Except.error e => (s, some e)
      | Except.ok council =>
        let s1 := { s with agents := some council }
        match council.agents with
        | none => (s1, some (PyErr.keyError "agents"))
        | some l =>
          match renderCouncilLoop 0 l with
          | Except.error e => (s1, some e)
          | Except.ok _ => (s1, none)

/-- The START SIMULATION button handler (timefold.py lines 248-250). -/
def startSimulationButton (s : SessionState) : SessionState :=
  { s with stage := Stage.SIMULATING }

/-- The Explore This Path button handler (timefold.py lines 306-311): append
the selected scenario dict to the history, clear the simulation and the
council, and go back to RECRUITING. -/
def exploreHandler (s : SessionState) (sc : Entry) : SessionState :=
  { s with
    history := s.history ++ [sc]
    simulation := none
    agents := none
    stage := Stage.RECRUITING }

/-- Python truthiness of st.session_state.simulation
(timefold.py line 261). -/
def pyTruthySimOpt (o : Option SimValue) : Bool :=
  match o with
  | none => false
  | some v => !(simFalsy v)

/-- Truthiness of simulation.get("black_swan_alert")
(timefold.py line 274): absent key gives None (falsy); an empty string is
falsy. -/
def bsTruthy (sim : SimValue) : Bool :=
  match sim.black_swan_alert with
  | none => false
  | some t => t != ""

/-- Result of one run of the SIMULATING stage script section: the session
state after the run, the messages shown via st.error, the uncaught exception
that aborted the run (if any; the session state survives such an abort), and
the prompt sent to the gateway (if a call was made). -/
structure BlockResult where
  state : SessionState
  reported : List String
  scriptError : Option PyErr
  promptUsed : Option String
deriving DecidableEq

/-- Timefold.py lines 266-275 (the tabs after the simulation value is
settled): draw the tree, then read simulation["synthesis"] (TypeError when
the simulation is None, KeyError when the key is absent), then the black-swan
banner. -/
def afterSim (s : SessionState) (rep : List String) (prm : Option String)
    (inject : Bool) : BlockResult :=
  match draw_advanced_tree s.history s.simulation with
  | Except.error e => ⟨s, rep, some e, prm⟩
  | Except.ok _ =>
    match s.simulation with
    | none => ⟨s, rep, some PyErr.typeError, prm⟩
    | some sim =>
      match sim.synthesis with
      | none => ⟨s, rep, some (PyErr.keyError "synthesis"), prm⟩
      | some _ =>
        let rep :=
          if bsTruthy sim || inject then
            rep ++ ["⚠️ BLACK SWAN / CHAOS DETECTED: " ++
              sim.black_swan_alert.getD "Chaos Injection Active"]
          else rep
        ⟨s, rep, none, prm⟩

/-- The SIMULATING stage block up to line 275 (timefold.py lines 252-275):
read the last history description (line 253), apply the chaos button if
pressed (lines 256-259), recompute the simulation when it is falsy
(lines 261-263), then render the tabs.  Lines 277-320 mutate no session
state outside the Explore-This-Path handler, modelled as `exploreHandler`. -/
def simulatingBlockCore (s : SessionState) (chaosPressed : Bool) (hasImage : Bool)
    (resp : GatewayResponse) : BlockResult :=
  match s.history.getLast? with
  | none => ⟨s, [], some PyErr.indexError, none⟩
  | some lastE =>
    match lastE.description with
    | none => ⟨s, [], some (PyErr.keyError "description"), none⟩
    | some context =>
      let s1 := if chaosPressed then { s with simulation := none } else s
      if pyTruthySimOpt s1.simulation then
        afterSim s1 [] none chaosPressed
      else
        match run_simulation context s1.agents hasImage chaosPressed resp with
        | Except.error e => ⟨s1, [], some e, none⟩
        | Except.ok call =>
          afterSim { s1 with simulation := call.result } call.reported (some call.prompt)
            chaosPressed

/-- The Reset System button handler (timefold.py lines 181-183) followed by
re-initialisation (lines 185-188). -/
def resetHandler : SessionState :=
  ⟨Stage.INPUT, [], none, none⟩

/-! ### Well-formedness predicates for parsed values -/

/-- A parsed agent dict that carries every field the code reads. -/
def wfAgent (a : AgentEntry) : Prop :=
  a.name.isSome ∧ a.role.isSome ∧ a.stance.isSome ∧ a.avatar.isSome

instance (a : AgentEntry) : Decidable (wfAgent a) := by
  unfold wfAgent; infer_instance

/-- A scenario dict that carries every key draw_advanced_tree reads. -/
def wfScenKeys (o : Entry) : Prop :=
  o.id.isSome ∧ o.title.isSome ∧ o.time_horizon.isSome ∧
    o.probability.isSome ∧ o.risk_level.isSome

instance (o : Entry) : Decidable (wfScenKeys o) := by
  unfold wfScenKeys; infer_instance

/-- A scenario record as the specification describes it: all keys present and
the risk level drawn from the four fixed labels. -/
def wfScenario (o : Entry) : Prop :=
  wfScenKeys o ∧
    (o.risk_level = some "Low" ∨ o.risk_level = some "Medium" ∨
      o.risk_level = some "High" ∨ o.risk_level = some "Critical")

instance (o : Entry) : Decidable (wfScenario o) := by
  unfold wfScenario; infer_instance

/-- A history entry on which generate_markdown_report cannot raise: title and
description present, and probability present whenever risk_level is. -/
def wfReport (e : Entry) : Prop :=
  e.title.isSome ∧ e.description.isSome ∧ (e.risk_level.isSome → e.probability.isSome)

instance (e : Entry) : Decidable (wfReport e) := by
  unfold wfReport; infer_instance

/-! ### Substring lemmas -/

theorem charsLead_iff (n h : List Char) : charsLead n h = true ↔ n <+: h := by
  induction n generalizing h with
  | nil => simp [charsLead]
  | cons a as ih =>
    cases h with
    | nil => simp [charsLead]
    | cons b bs => simp [charsLead, ih, List.cons_prefix_cons]

theorem charsSub_iff (n h : List Char) : charsSub n h = true ↔ n <:+: h := by
  induction h with
  | nil => cases n <;> simp [charsSub, charsLead]
  | cons b bs ih => simp [charsSub, charsLead_iff, ih, List.infix_cons_iff]

theorem strContains_iff (hay needle : String) :
    strContains hay needle = true ↔ needle.data <:+: hay.data := by
  simp [strContains, charsSub_iff]

theorem string_data_append (a b : String) : (a ++ b).data = a.data ++ b.data := rfl

theorem strContains_append_left (a b n : String) (h : strContains a n = true) :
    strContains (a ++ b) n = true := by
  rw [strContains_iff] at h ⊢
  rw [string_data_append]
  have hp : a.data <+: a.data ++ b.data := List.prefix_append a.data b.data
  exact h.trans hp.isInfix

theorem strContains_append_right (a b n : String) (h : strContains b n = true) :
    strContains (a ++ b) n = true := by
  rw [strContains_iff] at h ⊢
  rw [string_data_append]
  have hp : b.data <:+ a.data ++ b.data := List.suffix_append a.data b.data
  exact h.trans hp.isInfix

/-! ### Spec-side description of the report (used to state C6) -/

/-- One report section as the specification words it: the step heading with
the title, the description, a reasoning line when the trace is present, and a
risk/probability line when the risk level is present. -/
def sectionSpec (i : Nat) (stp : Entry) : String :=
  "## Step " ++ toString (i + 1) ++ ": " ++ stp.title.getD "" ++ "\n" ++
    "_" ++ stp.description.getD "" ++ "_\n\n" ++
    (match stp.reasoning_trace with
      | some rt => "> **Reasoning:** " ++ rt ++ "\n\n"
      | none => "") ++
    (match stp.risk_level with
      | some rl => "**Metrics:** Risk: " ++ rl ++ " | Prob: " ++
          toString (stp.probability.getD 0) ++ "%\n"
      | none => "") ++
    "---\n"

/-- The report body: exactly one section per history entry, in order. -/
def bodySpec (i : Nat) : List Entry → String
  | [] => ""
  | stp :: rest => sectionSpec i stp ++ bodySpec (i + 1) rest

theorem reportStep_ok_of_wf (i : Nat) (e : Entry) (h : wfReport e) :
    reportStep i e = Except.ok (sectionSpec i e) := by
  obtain ⟨ht, hd, hrp⟩ := h
  obtain ⟨t, ht⟩ := Option.isSome_iff_exists.mp ht
  obtain ⟨d, hd⟩ := Option.isSome_iff_exists.mp hd
  cases hrl : e.risk_level with
  | none => simp [reportStep, sectionSpec, ht, hd, hrl, String.append_assoc]
  | some rl =>
    obtain ⟨p, hp⟩ := Option.isSome_iff_exists.mp (hrp (by simp [hrl]))
    simp [reportStep, sectionSpec, ht, hd, hrl, hp, String.append_assoc]

theorem reportLoop_ok_of_wf (l : List Entry) (i : Nat) (h : ∀ e ∈ l, wfReport e) :
    reportLoop i l = Except.ok (bodySpec i l) := by
  induction l generalizing i with
  | nil => rfl
  | cons a rest ih =>
    have ha := h a (by simp)
    have hrest : ∀ e ∈ rest, wfReport e := fun e he => h e (by simp [he])
    simp [reportLoop, reportStep_ok_of_wf i a ha, ih i hrest, ih (i + 1) hrest, bodySpec]

/-- Every failure of reportStep is a KeyError. -/
theorem reportStep_err_shape (i : Nat) (e : Entry) :
    (∃ s, reportStep i e = Except.ok s) ∨ (∃ k, reportStep i e = Except.error (PyErr.keyError k)) := by
  unfold reportStep
  cases e.title with
  | none => exact Or.inr ⟨"title", rfl⟩
  | some t =>
    cases e.description with
    | none => exact Or.inr ⟨"description", rfl⟩
    | some d =>
      cases e.risk_level with
      | none => exact Or.inl ⟨_, rfl⟩
      | some rl =>
        cases e.probability with
        | none => exact Or.inr ⟨"probability", rfl⟩
        | some p => exact Or.inl ⟨_, rfl⟩

/-- An entry with a risk_level key but no probability key always makes
reportStep raise a KeyError. -/
theorem reportStep_err_of_bad (i : Nat) (e : Entry) (hr : e.risk_level.isSome)
    (hp : e.probability = none) :
    ∃ k, reportStep i e = Except.error (PyErr.keyError k) := by
  rcases reportStep_err_shape i e with ⟨s, hs⟩ | bad
  · exfalso
    obtain ⟨rl, hrl⟩ := Option.isSome_iff_exists.mp hr
    unfold reportStep at hs
    cases ht : e.title with
    | none => rw [ht] at hs; simp at hs
    | some t =>
      cases hd : e.description with
      | none => rw [ht, hd] at hs; simp at hs
      | some d => rw [ht, hd, hrl, hp] at hs; simp at hs
  · exact bad

/-! ### Spec-side description of the tree (used to state C5 and C10) -/

/-- The spine nodes: one per history entry, in order. -/
def histNS (i : Nat) : List Entry → List DotNode
  | [] => []
  | stp :: rest => ⟨"H_" ++ toString i, stp.title.getD "", "#21262D"⟩ :: histNS (i + 1) rest

/-- The spine edges produced by the history loop started at index i. -/
def histES (i : Nat) : List Entry → List DotEdge
  | [] => []
  | _ :: rest =>
    if i = 0 then histES (i + 1) rest
    else ⟨"H_" ++ toString (i - 1), "H_" ++ toString i, ""⟩ :: histES (i + 1) rest

theorem histLoop_ok_of_wf (l : List Entry) (i : Nat) (h : ∀ e ∈ l, e.title.isSome) :
    histLoop i l = Except.ok (histNS i l, histES i l) := by
  induction l generalizing i with
  | nil => rfl
  | cons a rest ih =>
    obtain ⟨t, ht⟩ := Option.isSome_iff_exists.mp (h a (by simp))
    have hrest : ∀ e ∈ rest, e.title.isSome := fun e he => h e (by simp [he])
    simp [histLoop, ht, ih (i + 1) hrest, histNS, histES]

theorem histNS_length (l : List Entry) (i : Nat) : (histNS i l).length = l.length := by
  induction l generalizing i with
  | nil => rfl
  | cons a rest ih => simp [histNS, ih]

theorem histNS_getElem? (l : List Entry) (i j : Nat) :
    (histNS i l)[j]? = (l[j]?).map
      (fun e => ⟨"H_" ++ toString (i + j), e.title.getD "", "#21262D"⟩) := by
  induction l generalizing i j with
  | nil => simp [histNS]
  | cons a rest ih =>
    cases j with
    | zero => simp [histNS]
    | succ j =>
      simp only [histNS, List.getElem?_cons_succ, ih (i + 1) j]
      have : i + 1 + j = i + (j + 1) := by omega
      rw [this]

theorem histES_shift (l : List Entry) (i : Nat) (hi : 1 ≤ i) :
    histES i l = (List.range l.length).map
      (fun j => ⟨"H_" ++ toString (i + j - 1), "H_" ++ toString (i + j), ""⟩) := by
  induction l generalizing i with
  | nil => simp [histES]
  | cons a rest ih =>
    have hne : ¬ i = 0 := by omega
    rw [List.length_cons, List.range_succ_eq_map]
    simp only [histES, hne, if_false, List.map_cons, ih (i + 1) (by omega), List.map_map]
    congr 1
    apply List.map_congr_left
    intro j _
    have e1 : i + 1 + j = i + (j + 1) := by omega
    have e2 : i + 1 + j - 1 = i + (j + 1) - 1 := by omega
    simp [Function.comp, e1, e2]

theorem histES_zero (l : List Entry) :
    histES 0 l = (List.range (l.length - 1)).map
      (fun j => ⟨"H_" ++ toString j, "H_" ++ toString (j + 1), ""⟩) := by
  cases l with
  | nil => simp [histES]
  | cons a rest =>
    simp only [histES, if_pos rfl, List.length_cons, Nat.add_sub_cancel]
    rw [histES_shift rest 1 (by omega)]
    apply List.map_congr_left
    intro j _
    have h1 : 1 + j - 1 = j := by omega
    have h2 : 1 + j = j + 1 := by omega
    rw [h1, h2]

/-- The scenario leaf node produced by the code for one scenario dict. -/
def optNodeSpec (o : Entry) : DotNode :=
  ⟨"OPT_" ++ o.id.getD "",
    optLabel (o.title.getD "") (o.time_horizon.getD "") (o.probability.getD 0),
    optColor (pyLower (o.risk_level.getD ""))⟩

/-- The scenario edge produced by the code for one scenario dict. -/
def optEdgeSpec (lid : String) (o : Entry) : DotEdge :=
  ⟨lid, "OPT_" ++ o.id.getD "", "Risk: " ++ o.risk_level.getD ""⟩

/-- The fixed risk-level-to-color mapping as the specification words it. -/
def riskColorSpec (rl : String) : String :=
  if rl = "Critical" then "#8B0000"
  else if rl = "High" then "#B22222"
  else if rl = "Low" then "#006400"
  else "#003366"

theorem drawOpt_ok_of_wf (lid : String) (o : Entry) (h : wfScenKeys o) :
    drawOpt lid o = Except.ok (optNodeSpec o, optEdgeSpec lid o) := by
  obtain ⟨hi, ht, hth, hp, hr⟩ := h
  obtain ⟨iv, hi⟩ := Option.isSome_iff_exists.mp hi
  obtain ⟨tv, ht⟩ := Option.isSome_iff_exists.mp ht
  obtain ⟨thv, hth⟩ := Option.isSome_iff_exists.mp hth
  obtain ⟨pv, hp⟩ := Option.isSome_iff_exists.mp hp
  obtain ⟨rv, hr⟩ := Option.isSome_iff_exists.mp hr
  simp [drawOpt, optNodeSpec, optEdgeSpec, hi, ht, hth, hp, hr]

theorem optLoop_ok_of_wf (lid : String) (scs : List Entry)
    (h : ∀ o ∈ scs, wfScenKeys o) :
    optLoop lid scs = Except.ok (scs.map optNodeSpec, scs.map (optEdgeSpec lid)) := by
  induction scs with
  | nil => rfl
  | cons a rest ih =>
    have ha := h a (by simp)
    have hrest : ∀ o ∈ rest, wfScenKeys o := fun o ho => h o (by simp [ho])
    simp [optLoop, drawOpt_ok_of_wf lid a ha, ih hrest]

/-- On the four canonical risk labels the coded substring dispatch agrees
with the fixed mapping. -/
theorem optColor_agrees (rl : String)
    (h : rl = "Low" ∨ rl = "Medium" ∨ rl = "High" ∨ rl = "Critical") :
    optColor (pyLower rl) = riskColorSpec rl := by
  rcases h with h | h | h | h <;> subst h <;> decide

/-- The Python index string for the last spine node agrees with the Nat form
on non-empty histories. -/
theorem lastIdString (n : Nat) (h : n ≠ 0) :
    "H_" ++ toString ((n : Int) - 1) = "H_" ++ toString (n - 1) := by
  have h1 : ((n : Int) - 1) = ((n - 1 : Nat) : Int) := by omega
  rw [h1]
  rfl

/-- No scenario leaf id collides with the phantom id "H_-1". -/
theorem optId_ne_phantom (x : String) : "OPT_" ++ x ≠ "H_-1" := by
  intro h
  have h0 : ("OPT_" ++ x).data.head? = ("H_-1" : String).data.head? := by rw [h]
  have h1 : ("OPT_" ++ x).data.head? = some 'O' := rfl
  have h2 : ("H_-1" : String).data.head? = some 'H' := rfl
  rw [h1, h2] at h0
  exact absurd h0 (by decide)

/-- The id of the last spine node. -/
theorem histNS_getLast_id (l : List Entry) (i : Nat) (h2 : histNS i l ≠ []) :
    (List.getLast (histNS i l) h2).id = "H_" ++ toString (i + l.length - 1) := by
  induction l generalizing i with
  | nil => exact absurd rfl h2
  | cons a rest ih =>
    cases rest with
    | nil => simp [histNS]
    | cons b rs =>
      have hne3 : histNS (i + 1) (b :: rs) ≠ [] := by simp [histNS]
      have key : (histNS i (a :: b :: rs)).getLast h2 =
          (histNS (i + 1) (b :: rs)).getLast hne3 := List.getLast_cons hne3
      rw [key, ih (i + 1) hne3]
      have e1 : i + 1 + (b :: rs).length - 1 = i + (a :: b :: rs).length - 1 := by
        simp only [List.length_cons]
        omega
      rw [e1]

/-! ### Helper lemmas about the gateway calls and stage blocks -/

/-- The simulation value run_simulation hands back for a given gateway
outcome. -/
def gatewayResultOf (resp : GatewayResponse) : Option SimValue :=
  match resp with
  | GatewayResponse.failure _ => none
  | GatewayResponse.json v => some v

/-- The st.error messages run_simulation produces for a given gateway
outcome. -/
def gatewayReportOf (resp : GatewayResponse) : List String :=
  match resp with
  | GatewayResponse.failure msg => ["Simulation Error: " ++ msg]
  | GatewayResponse.json _ => []

theorem agentLines_ok (l : List AgentEntry) (hwf : ∀ a ∈ l, wfAgent a) :
    ∃ ls, agentLines l = Except.ok ls := by
  induction l with
  | nil => exact ⟨[], rfl⟩
  | cons a rest ih =>
    obtain ⟨nv, hn⟩ := Option.isSome_iff_exists.mp (hwf a (by simp)).1
    obtain ⟨rv, hr⟩ := Option.isSome_iff_exists.mp (hwf a (by simp)).2.1
    obtain ⟨sv, hs⟩ := Option.isSome_iff_exists.mp (hwf a (by simp)).2.2.1
    obtain ⟨ls, hls⟩ := ih (fun x hx => hwf x (by simp [hx]))
    exact ⟨("- " ++ nv ++ " (" ++ rv ++ "): " ++ sv) :: ls,
      by simp [agentLines, agentLine, hn, hr, hs, hls]⟩

theorem run_simulation_ok (ctx : String) (c : CouncilValue) (l : List AgentEntry)
    (img inject : Bool) (resp : GatewayResponse)
    (hc : c.agents = some l) (hwf : ∀ a ∈ l, wfAgent a) :
    ∃ desc, agentsDesc (some c) = Except.ok desc ∧
      run_simulation ctx (some c) img inject resp =
        Except.ok ⟨gatewayResultOf resp, gatewayReportOf resp,
          simulationPrompt ctx desc (chaosPromptStr inject),
          simulationInputs (simulationPrompt ctx desc (chaosPromptStr inject)) img⟩ := by
  obtain ⟨ls, hls⟩ := agentLines_ok l hwf
  refine ⟨String.intercalate "\n" ls, ?_, ?_⟩
  · simp [agentsDesc, hc, hls]
  · cases resp <;>
      simp [run_simulation, agentsDesc, hc, hls, gatewayResultOf, gatewayReportOf]

/-- afterSim never changes the session state and passes the prompt through. -/
theorem afterSim_state (s : SessionState) (rep : List String) (prm : Option String)
    (inject : Bool) :
    (afterSim s rep prm inject).state = s ∧ (afterSim s rep prm inject).promptUsed = prm := by
  unfold afterSim
  split
  · exact ⟨rfl, rfl⟩
  · split
    · exact ⟨rfl, rfl⟩
    · split
      · exact ⟨rfl, rfl⟩
      · exact ⟨rfl, rfl⟩

theorem renderCouncilLoop_ok (l : List AgentEntry) (i : Nat)
    (hwf : ∀ a ∈ l, wfAgent a) (hle : i + l.length ≤ 3) :
    renderCouncilLoop i l = Except.ok () := by
  induction l generalizing i with
  | nil => rfl
  | cons a rest ih =>
    have hi : i < 3 := by
      simp only [List.length_cons] at hle
      omega
    obtain ⟨hn0, hr0, hs0, hav0⟩ := hwf a (by simp)
    obtain ⟨nv, hn⟩ := Option.isSome_iff_exists.mp hn0
    obtain ⟨rv, hr⟩ := Option.isSome_iff_exists.mp hr0
    obtain ⟨sv, hs⟩ := Option.isSome_iff_exists.mp hs0
    obtain ⟨av, hav⟩ := Option.isSome_iff_exists.mp hav0
    have hrest : renderCouncilLoop (i + 1) rest = Except.ok () :=
      ih (i + 1) (fun x hx => hwf x (by simp [hx]))
        (by simp only [List.length_cons] at hle; omega)
    simp [renderCouncilLoop, hi, agentCard, hav, hn, hr, hs, hrest]

theorem renderCouncilLoop_overflow (l : List AgentEntry) (i : Nat)
    (hwf : ∀ a ∈ l, wfAgent a) (hgt : 3 < i + l.length) (hle : i ≤ 3) :
    renderCouncilLoop i l = Except.error PyErr.indexError := by
  induction l generalizing i with
  | nil =>
    simp only [List.length_nil, Nat.add_zero] at hgt
    omega
  | cons a rest ih =>
    by_cases hi : i < 3
    · obtain ⟨hn0, hr0, hs0, hav0⟩ := hwf a (by simp)
      obtain ⟨nv, hn⟩ := Option.isSome_iff_exists.mp hn0
      obtain ⟨rv, hr⟩ := Option.isSome_iff_exists.mp hr0
      obtain ⟨sv, hs⟩ := Option.isSome_iff_exists.mp hs0
      obtain ⟨av, hav⟩ := Option.isSome_iff_exists.mp hav0
      have hrest : renderCouncilLoop (i + 1) rest = Except.error PyErr.indexError :=
        ih (i + 1) (fun x hx => hwf x (by simp [hx]))
          (by simp only [List.length_cons] at hgt; omega) (by omega)
      simp [renderCouncilLoop, hi, agentCard, hav, hn, hr, hs, hrest]
    · simp [renderCouncilLoop, hi]

/-- When every entry carries title and description, the report fails with
exactly the probability KeyError as soon as some entry has risk_level but no
probability. -/
theorem reportLoop_prob_err (l : List Entry) :
    ∀ i, (∀ e ∈ l, e.title.isSome ∧ e.description.isSome) →
      (∃ e ∈ l, e.risk_level.isSome ∧ e.probability = none) →
      reportLoop i l = Except.error (PyErr.keyError "probability") := by
  induction l with
  | nil =>
    intro i _ hb
    rcases hb with ⟨e, he, _⟩
    exact absurd he (List.not_mem_nil e)
  | cons a rest ih =>
    intro i hwf hb
    obtain ⟨ht0, hd0⟩ := hwf a (by simp)
    obtain ⟨t, ht⟩ := Option.isSome_iff_exists.mp ht0
    obtain ⟨d, hd⟩ := Option.isSome_iff_exists.mp hd0
    by_cases hbad : a.risk_level.isSome ∧ a.probability = none
    · obtain ⟨hr, hp⟩ := hbad
      obtain ⟨rl, hrl⟩ := Option.isSome_iff_exists.mp hr
      simp [reportLoop, reportStep, ht, hd, hrl, hp]
    · have hs : reportStep i a = Except.ok (sectionSpec i a) := by
        apply reportStep_ok_of_wf
        refine ⟨ht0, hd0, fun hr => ?_⟩
        cases hp0 : a.probability with
        | none => exact absurd ⟨hr, hp0⟩ hbad
        | some p => simp
      have hrest : ∃ e ∈ rest, e.risk_level.isSome ∧ e.probability = none := by
        rcases hb with ⟨e, he, hbe⟩
        rcases List.mem_cons.mp he with rfl | hmem
        · exact absurd hbe hbad
        · exact ⟨e, hmem, hbe⟩
      have hloop := ih (i + 1) (fun e he => hwf e (by simp [he])) hrest
      simp [reportLoop, hs, hloop]

/-! ### Claim theorems -/

/-- C3: selecting a scenario from the current simulation appends exactly that
record (the same dict value, with all its fields) to the history, clears the
current simulation and the current council, and sets the stage to RECRUITING.
The session state consists exactly of these four components
(timefold.py lines 185-188), so characterising all four shows that nothing
else changes. -/
theorem c3_explore_path_transition (s : SessionState) (sim : SimValue)
    (scs : List Entry) (sc : Entry)
    (hstage : s.stage = Stage.SIMULATING)
    (hsim : s.simulation = some sim)
    (hscs : sim.scenarios = some scs)
    (hmem : sc ∈ scs) :
    exploreHandler s sc =
      { stage := Stage.RECRUITING, history := s.history ++ [sc],
        agents := none, simulation := none } := rfl

/-- Witness for c3_explore_path_transition at a concrete session state. -/
theorem c3_explore_path_witness :
    exploreHandler
        ⟨Stage.SIMULATING, [seedEntry "ctx"], some ⟨some []⟩,
          some ⟨some [⟨some "T", some "D", some "sc_2", some 10, some "Short Term (0-6m)",
            some "Low", some 5, some 50, some 50, some "tr"⟩], some "syn", none⟩⟩
        ⟨some "T", some "D", some "sc_2", some 10, some "Short Term (0-6m)",
          some "Low", some 5, some 50, some 50, some "tr"⟩ =
      { stage := Stage.RECRUITING,
        history := [seedEntry "ctx",
          ⟨some "T", some "D", some "sc_2", some 10, some "Short Term (0-6m)",
            some "Low", some 5, some 50, some 50, some "tr"⟩],
        agents := none, simulation := none } :=
  c3_explore_path_transition _ _
    [⟨some "T", some "D", some "sc_2", some 10, some "Short Term (0-6m)",
      some "Low", some 5, some 50, some 50, some "tr"⟩] _ rfl rfl rfl (by simp)

/-- C7: for every context the recruitment prompt is the fixed template around
the context, so it asks for exactly 3 experts, carries the no-honorifics rule
(the only honorific-related instruction in the template is the forbidding
one), and asks for diverse perspectives; with an image attached the visual
analysis instruction is appended to the request inputs. -/
theorem c7_recruitment_prompt (context : String) :
    recruitmentPrompt context =
      "MISSION: Recruit 3 distinct strategic experts to analyze: " ++ context ++
        ". RULES: No honorifics. Diverse perspectives." ∧
    strContains (recruitmentPrompt context) "Recruit 3 distinct strategic experts" = true ∧
    strContains (recruitmentPrompt context) "No honorifics." = true ∧
    strContains (recruitmentPrompt context) "Diverse perspectives." = true ∧
    recruitmentInputs context true =
      [ReqInput.text (recruitmentPrompt context), ReqInput.imagePart,
        ReqInput.text "Analyze visual data."] ∧
    recruitmentInputs context false = [ReqInput.text (recruitmentPrompt context)] := by
  refine ⟨rfl, ?_, ?_, ?_, rfl, rfl⟩
  · exact strContains_append_left _ _ _ (strContains_append_left _ _ _ (by decide))
  · exact strContains_append_right _ _ _ (by decide)
  · exact strContains_append_right _ _ _ (by decide)

/-- C8: once an entry has the risk_level key, the metrics line reads the
probability key unconditionally (timefold.py line 137), so a history
containing an entry with risk_level but without probability makes
generate_markdown_report raise KeyError instead of returning a document. -/
theorem c8_risk_without_probability_keyerror (h : List Entry) (ts : String)
    (hwf : ∀ e ∈ h, e.title.isSome ∧ e.description.isSome)
    (hb : ∃ e ∈ h, e.risk_level.isSome ∧ e.probability = none) :
    generate_markdown_report h ts = Except.error (PyErr.keyError "probability") := by
  simp [generate_markdown_report, reportLoop_prob_err h 0 hwf hb]

/-- Witness for c8_risk_without_probability_keyerror at a concrete history. -/
theorem c8_keyerror_witness :
    generate_markdown_report
      [⟨some "Branch", some "Risky branch", none, none, none, some "High",
        none, none, none, none⟩] "2026-02-02" =
      Except.error (PyErr.keyError "probability") :=
  c8_risk_without_probability_keyerror _ _ (by decide)
    ⟨⟨some "Branch", some "Risky branch", none, none, none, some "High",
      none, none, none, none⟩, by simp, by decide⟩

/-- C9: pressing INITIALIZE SYSTEM with empty text but an attached image
appends the seed entry with title "START" and the fixed fallback description
"Analyze the uploaded visual data.", and moves the stage to RECRUITING
(timefold.py lines 214-219). -/
theorem c9_init_with_image_only (s : SessionState) (hstage : s.stage = Stage.INPUT) :
    systemInitHandler "" true s =
      ({ s with
          history := s.history ++ [seedEntry "Analyze the uploaded visual data."]
          stage := Stage.RECRUITING }, []) ∧
    (seedEntry "Analyze the uploaded visual data.").title = some "START" ∧
    (seedEntry "Analyze the uploaded visual data.").description =
      some "Analyze the uploaded visual data." :=
  ⟨rfl, rfl, rfl⟩

/-- Witness for c9_init_with_image_only at the freshly initialised state. -/
theorem c9_init_witness :
    systemInitHandler "" true resetHandler =
      ({ resetHandler with
          history := resetHandler.history ++ [seedEntry "Analyze the uploaded visual data."]
          stage := Stage.RECRUITING }, []) ∧
    (seedEntry "Analyze the uploaded visual data.").title = some "START" ∧
    (seedEntry "Analyze the uploaded visual data.").description =
      some "Analyze the uploaded visual data." :=
  c9_init_with_image_only resetHandler rfl

/-- C10: with an empty history and a present simulation, draw_advanced_tree
does not fail: last_id is the Python string "H_-1" (f-string of len([]) - 1),
so every scenario edge has source "H_-1", an id carried by no node of the
graph (no history node was created at all), leaving the leaves attached to a
phantom root. -/
theorem c10_phantom_root (sim : SimValue) (scs : List Entry)
    (hscs : sim.scenarios = some scs)
    (hwf : ∀ o ∈ scs, wfScenKeys o) :
    ∃ g, draw_advanced_tree [] (some sim) = Except.ok g ∧
      g.edges.length = scs.length ∧
      (∀ e ∈ g.edges, e.src = "H_-1") ∧
      (∀ n ∈ g.nodes, n.id ≠ "H_-1") := by
  have hfalsy : simFalsy sim = false := by simp [simFalsy, hscs]
  have hopt := optLoop_ok_of_wf ("H_" ++ toString ((-1 : Int))) scs hwf
  refine ⟨⟨scs.map optNodeSpec, scs.map (optEdgeSpec ("H_" ++ toString ((-1 : Int))))⟩,
    ?_, ?_, ?_, ?_⟩
  · simp [draw_advanced_tree, histLoop, hfalsy, hscs, hopt]
  · simp
  · intro e he
    obtain ⟨o, _, rfl⟩ := List.mem_map.mp he
    show "H_" ++ toString ((-1 : Int)) = "H_-1"
    decide
  · intro n hn
    obtain ⟨o, _, rfl⟩ := List.mem_map.mp hn
    exact optId_ne_phantom _

/-- C6 counterexample: the claim quantifies over every history list, but for
a history whose entry has risk_level without probability the export raises
KeyError and no document at all is produced, so the claimed report shape
fails on that input. -/
theorem c6_missing_probability_no_report :
    generate_markdown_report
      [⟨some "Seed", some "Start of run", none, none, none, some "Critical",
        none, none, none, none⟩] "2026-01-01" =
      Except.error (PyErr.keyError "probability") := rfl

/-- C6 amended: for every history whose entries all carry title and
description and carry probability whenever they carry risk_level, the export
succeeds and equals the fixed heading, the timestamp line, and then exactly
one section per entry in order (title, description, reasoning trace when
present, risk/probability line when present - see sectionSpec); exporting the
same history with two different timestamps yields the same text apart from
the timestamp, since the body depends only on the history. -/
theorem c6_report_structure (h : List Entry) (ts ts2 : String)
    (hwf : ∀ e ∈ h, wfReport e) :
    generate_markdown_report h ts =
      Except.ok ("# TIMEFOLD STRATEGIC REPORT\n" ++ "**Date:** " ++ ts ++ "\n\n" ++
        bodySpec 0 h) ∧
    generate_markdown_report h ts2 =
      Except.ok ("# TIMEFOLD STRATEGIC REPORT\n" ++ "**Date:** " ++ ts2 ++ "\n\n" ++
        bodySpec 0 h) := by
  constructor <;> simp [generate_markdown_report, reportLoop_ok_of_wf h 0 hwf]

/-- Witness for c6_report_structure at a concrete two-entry history and two
timestamps. -/
theorem c6_report_structure_witness :
    generate_markdown_report
      [seedEntry "Lithium supply collapse",
        ⟨some "Shock", some "Prices triple", some "s1", some 40, some "Mid Term (1-2y)",
          some "High", some 8, some 70, some 60, some "trace"⟩] "2026-01-01" =
      Except.ok ("# TIMEFOLD STRATEGIC REPORT\n" ++ "**Date:** " ++ "2026-01-01" ++ "\n\n" ++
        bodySpec 0 [seedEntry "Lithium supply collapse",
          ⟨some "Shock", some "Prices triple", some "s1", some 40, some "Mid Term (1-2y)",
            some "High", some 8, some 70, some 60, some "trace"⟩]) ∧
    generate_markdown_report
      [seedEntry "Lithium supply collapse",
        ⟨some "Shock", some "Prices triple", some "s1", some 40, some "Mid Term (1-2y)",
          some "High", some 8, some 70, some 60, some "trace"⟩] "2027-12-31" =
      Except.ok ("# TIMEFOLD STRATEGIC REPORT\n" ++ "**Date:** " ++ "2027-12-31" ++ "\n\n" ++
        bodySpec 0 [seedEntry "Lithium supply collapse",
          ⟨some "Shock", some "Prices triple", some "s1", some 40, some "Mid Term (1-2y)",
            some "High", some 8, some 70, some 60, some "trace"⟩]) :=
  c6_report_structure _ "2026-01-01" "2027-12-31" (by decide)

/-- C5 counterexample: for the empty history with a present simulation the
claimed shape fails - the single scenario edge has source "H_-1", while the
graph contains no node with that id at all (no node was created for any
history entry), so the edge does not leave from a spine node. -/
theorem c5_empty_history_phantom_source :
    ((draw_advanced_tree []
        (some ⟨some [⟨some "Leaf", none, some "sx", some 20, some "Mid Term (1-2y)",
          some "High", none, none, none, none⟩], some "syn", none⟩)).toOption.map
      (fun g => g.edges.map (fun e => e.src))) = some ["H_-1"] ∧
    ((draw_advanced_tree []
        (some ⟨some [⟨some "Leaf", none, some "sx", some 20, some "Mid Term (1-2y)",
          some "High", none, none, none, none⟩], some "syn", none⟩)).toOption.map
      (fun g => g.nodes.map (fun n => n.id))) = some ["OPT_sx"] ∧
    ("H_-1" : String) ∉ (["OPT_sx"] : List String) :=
  ⟨rfl, rfl, by decide⟩

/-- C5 amended: for every NON-EMPTY history (with titled entries) and every
present simulation of well-formed scenario records, the graph is exactly one
node per history entry in order (ids H_0, H_1, ...), spine edges in
chronological order, plus one leaf node and one edge per scenario; every
scenario edge leaves from the id of the last spine node and is labeled with
the scenario risk level, and every leaf is colored by the fixed mapping
(Critical to #8B0000, High to #B22222, Low to #006400, other to #003366).
Rendering is a pure function of the pair, so rendering twice is identical.
For the empty history the scenario edges instead leave from the phantom id
"H_-1" (see the counterexample and C10). -/
theorem c5_tree_structure (history : List Entry) (sim : SimValue) (scs : List Entry)
    (hne : history ≠ [])
    (htitles : ∀ e ∈ history, e.title.isSome)
    (hscs : sim.scenarios = some scs)
    (hwf : ∀ o ∈ scs, wfScenario o) :
    ∃ hn he,
      draw_advanced_tree history none = Except.ok ⟨hn, he⟩ ∧
      draw_advanced_tree history (some sim) =
        Except.ok ⟨hn ++ scs.map optNodeSpec,
          he ++ scs.map (optEdgeSpec ("H_" ++ toString (history.length - 1)))⟩ ∧
      hn.length = history.length ∧
      (∀ j : Nat, hn[j]? = (history[j]?).map
        (fun e => (⟨"H_" ++ toString j, e.title.getD "", "#21262D"⟩ : DotNode))) ∧
      he = (List.range (history.length - 1)).map
        (fun j => ⟨"H_" ++ toString j, "H_" ++ toString (j + 1), ""⟩) ∧
      (∀ hne2 : hn ≠ [], (hn.getLast hne2).id = "H_" ++ toString (history.length - 1)) ∧
      (∀ o ∈ scs, optNodeSpec o =
        ⟨"OPT_" ++ o.id.getD "",
          optLabel (o.title.getD "") (o.time_horizon.getD "") (o.probability.getD 0),
          riskColorSpec (o.risk_level.getD "")⟩) ∧
      (∀ o ∈ scs, optEdgeSpec ("H_" ++ toString (history.length - 1)) o =
        ⟨"H_" ++ toString (history.length - 1), "OPT_" ++ o.id.getD "",
          "Risk: " ++ o.risk_level.getD ""⟩) ∧
      draw_advanced_tree history (some sim) = draw_advanced_tree history (some sim) := by
  have hlen0 : history.length ≠ 0 := fun h0 => hne (List.length_eq_zero.mp h0)
  have hwk : ∀ o ∈ scs, wfScenKeys o := fun o ho => (hwf o ho).1
  have hh := histLoop_ok_of_wf history 0 htitles
  have hfalsy : simFalsy sim = false := by simp [simFalsy, hscs]
  have hlid := lastIdString history.length hlen0
  have hopt := optLoop_ok_of_wf ("H_" ++ toString (history.length - 1)) scs hwk
  refine ⟨histNS 0 history, histES 0 history, ?_, ?_, histNS_length _ _, ?_, histES_zero _,
    ?_, ?_, fun o _ => rfl, rfl⟩
  · simp [draw_advanced_tree, hh]
  · simp [draw_advanced_tree, hh, hscs, hfalsy, hlid, hopt]
  · intro j
    rw [histNS_getElem? history 0 j]
    simp
  · intro hne2
    rw [histNS_getLast_id history 0 hne2]
    simp
  · intro o ho
    show (⟨"OPT_" ++ o.id.getD "",
      optLabel (o.title.getD "") (o.time_horizon.getD "") (o.probability.getD 0),
      optColor (pyLower (o.risk_level.getD ""))⟩ : DotNode) = _
    rw [optColor_agrees (o.risk_level.getD "")
      (by rcases (hwf o ho).2 with hr | hr | hr | hr <;> simp [hr])]

/-- Witness for c5_tree_structure at a concrete one-entry history and
one-scenario simulation. -/
theorem c5_tree_structure_witness :
    ∃ hn he,
      draw_advanced_tree [seedEntry "seed"] none = Except.ok ⟨hn, he⟩ ∧
      draw_advanced_tree [seedEntry "seed"]
          (some ⟨some [⟨some "Up", some "Growth", some "a1", some 60,
            some "Short Term (0-6m)", some "Low", some 4, some 80, some 70, some "t"⟩],
            some "syn", none⟩) =
        Except.ok ⟨hn ++ [⟨some "Up", some "Growth", some "a1", some 60,
            some "Short Term (0-6m)", some "Low", some 4, some 80, some 70,
            some "t"⟩].map optNodeSpec,
          he ++ [⟨some "Up", some "Growth", some "a1", some 60,
            some "Short Term (0-6m)", some "Low", some 4, some 80, some 70,
            some "t"⟩].map (optEdgeSpec ("H_" ++ toString ([seedEntry "seed"].length - 1)))⟩ := by
  obtain ⟨hn, he, h1, h2, _⟩ := c5_tree_structure [seedEntry "seed"]
    ⟨some [⟨some "Up", some "Growth", some "a1", some 60,
      some "Short Term (0-6m)", some "Low", some 4, some 80, some 70, some "t"⟩],
      some "syn", none⟩
    [⟨some "Up", some "Growth", some "a1", some 60,
      some "Short Term (0-6m)", some "Low", some 4, some 80, some 70, some "t"⟩]
    (by simp) (by decide) rfl (by decide)
  exact ⟨hn, he, h1, h2⟩

/-- Concrete state used by the C2 theorems: a RECRUITING session with one
seed history entry. -/
def c2State : SessionState := ⟨Stage.RECRUITING, [seedEntry "ctx"], none, none⟩

/-- A parsed council with only two complete agents. -/
def c2Council : CouncilValue :=
  ⟨some [⟨some "Alpha", some "Analyst", some "Risk-Averse", some "AV"⟩,
    ⟨some "Beta", some "Economist", some "Disruptive", some "BV"⟩]⟩

/-- C2 counterexample: a council with 2 agents (not 3) flows through the
RECRUITING stage with no failure at all - recruit_agents stores the parsed
value as-is, the two cards render, and the START SIMULATION transition then
proceeds to SIMULATING with that council.  The claimed parse/validation
failure never happens. -/
theorem c2_two_agent_council_accepted :
    (c2Council.agents.getD []).length = 2 ∧
    recruitingBlock c2State false (RecruitResponse.json c2Council) =
      ({ c2State with agents := some c2Council }, none) ∧
    (startSimulationButton { c2State with agents := some c2Council }).stage =
      Stage.SIMULATING :=
  ⟨rfl, rfl, rfl⟩

/-- C2 amended: recruit_agents performs no validation - every parsed JSON
council value is returned unchanged.  A council with at most 3 complete
agents (including 2, or 0) is accepted silently and the stage can proceed
with it; only a council with more than 3 agents fails, and that failure is an
IndexError raised while rendering the cards (after the council has already
been stored), not a recruitment parse failure. -/
theorem c2_council_not_validated (ctx : String) (img : Bool) (v : CouncilValue)
    (s : SessionState) (council : CouncilValue) (l : List AgentEntry)
    (hlast : ∃ e d, s.history.getLast? = some e ∧ e.description = some d)
    (hc : council.agents = some l)
    (hwf : ∀ a ∈ l, wfAgent a) :
    (recruit_agents ctx img (RecruitResponse.json v)).1 = Except.ok v ∧
    (l.length ≤ 3 →
      recruitingBlock s img (RecruitResponse.json council) =
        ({ s with agents := some council }, none)) ∧
    (3 < l.length →
      recruitingBlock s img (RecruitResponse.json council) =
        ({ s with agents := some council }, some PyErr.indexError)) := by
  rcases hlast with ⟨e, d, he, hd⟩
  refine ⟨rfl, fun hle => ?_, fun hgt => ?_⟩
  · simp [recruitingBlock, he, hd, recruit_agents, hc,
      renderCouncilLoop_ok l 0 hwf (by omega)]
  · simp [recruitingBlock, he, hd, recruit_agents, hc,
      renderCouncilLoop_overflow l 0 hwf (by omega) (by omega)]

/-- Witness for c2_council_not_validated at the concrete two-agent council. -/
theorem c2_council_not_validated_witness :
    recruitingBlock c2State false (RecruitResponse.json c2Council) =
      ({ c2State with agents := some c2Council }, none) :=
  (c2_council_not_validated "ctx" false c2Council c2State c2Council
    [⟨some "Alpha", some "Analyst", some "Risk-Averse", some "AV"⟩,
      ⟨some "Beta", some "Economist", some "Disruptive", some "BV"⟩]
    ⟨seedEntry "ctx", "ctx", rfl, rfl⟩ rfl (by decide)).2.1 (by decide)

/-- C4: pressing Inject Chaos while a current simulation exists clears it
(the stored simulation after the run is determined by the fresh gateway
outcome alone, independent of the old value), the stage stays SIMULATING with
history and council untouched, and the simulation prompt built in that same
run carries the explicit black-swan instruction. -/
theorem c4_chaos_injection (s : SessionState) (sim : SimValue) (c : CouncilValue)
    (l : List AgentEntry) (img : Bool) (resp : GatewayResponse)
    (hstage : s.stage = Stage.SIMULATING)
    (hsim : s.simulation = some sim)
    (hlast : ∃ e d, s.history.getLast? = some e ∧ e.description = some d)
    (hag : s.agents = some c) (hcl : c.agents = some l)
    (hwf : ∀ a ∈ l, wfAgent a) :
    ∃ p, (simulatingBlockCore s true img resp).promptUsed = some p ∧
      strContains p "INJECT A BLACK SWAN EVENT: Introduce a low-probability, high-impact disruption into the scenarios." = true ∧
      (simulatingBlockCore s true img resp).state.stage = Stage.SIMULATING ∧
      (simulatingBlockCore s true img resp).state.history = s.history ∧
      (simulatingBlockCore s true img resp).state.agents = s.agents ∧
      (simulatingBlockCore s true img resp).state.simulation = gatewayResultOf resp := by
  rcases hlast with ⟨e, d, he, hd⟩
  obtain ⟨desc, hdesc, hrun⟩ := run_simulation_ok d c l img true resp hcl hwf
  have hblock : simulatingBlockCore s true img resp =
      afterSim { s with simulation := gatewayResultOf resp } (gatewayReportOf resp)
        (some (simulationPrompt d desc (chaosPromptStr true))) true := by
    simp [simulatingBlockCore, he, hd, pyTruthySimOpt, hag, hrun]
  obtain ⟨hstate, hprm⟩ := afterSim_state { s with simulation := gatewayResultOf resp }
    (gatewayReportOf resp) (some (simulationPrompt d desc (chaosPromptStr true))) true
  have hcontains : strContains (simulationPrompt d desc (chaosPromptStr true))
      "INJECT A BLACK SWAN EVENT: Introduce a low-probability, high-impact disruption into the scenarios." = true := by
    have h0 : strContains (chaosPromptStr true)
        "INJECT A BLACK SWAN EVENT: Introduce a low-probability, high-impact disruption into the scenarios." = true := by
      decide
    unfold simulationPrompt
    exact strContains_append_left _ _ _ (strContains_append_left _ _ _
      (strContains_append_left _ _ _ (strContains_append_right _ _ _ h0)))
  refine ⟨simulationPrompt d desc (chaosPromptStr true), ?_, hcontains, ?_, ?_, ?_, ?_⟩ <;>
    rw [hblock]
  · rw [hprm]
  · rw [hstate]
    exact hstage
  · rw [hstate]
  · rw [hstate]
  · rw [hstate]

/-- Concrete council and session state used by the C4 witness. -/
def c4Council : CouncilValue :=
  ⟨some [⟨some "Cass", some "Futurist", some "Disruptive", some "CF"⟩]⟩

/-- A SIMULATING state that already holds a simulation. -/
def c4State : SessionState :=
  ⟨Stage.SIMULATING, [seedEntry "chaos context"], some c4Council,
    some ⟨some [], some "old synthesis", none⟩⟩

/-- Witness for c4_chaos_injection at a concrete state and gateway outcome. -/
theorem c4_chaos_injection_witness :
    ∃ p, (simulatingBlockCore c4State true false
        (GatewayResponse.failure "down")).promptUsed = some p ∧
      strContains p "INJECT A BLACK SWAN EVENT: Introduce a low-probability, high-impact disruption into the scenarios." = true ∧
      (simulatingBlockCore c4State true false
        (GatewayResponse.failure "down")).state.stage = Stage.SIMULATING ∧
      (simulatingBlockCore c4State true false
        (GatewayResponse.failure "down")).state.history = c4State.history ∧
      (simulatingBlockCore c4State true false
        (GatewayResponse.failure "down")).state.agents = c4State.agents ∧
      (simulatingBlockCore c4State true false
        (GatewayResponse.failure "down")).state.simulation =
        gatewayResultOf (GatewayResponse.failure "down") :=
  c4_chaos_injection c4State ⟨some [], some "old synthesis", none⟩ c4Council
    [⟨some "Cass", some "Futurist", some "Disruptive", some "CF"⟩] false
    (GatewayResponse.failure "down") rfl rfl
    ⟨seedEntry "chaos context", "chaos context", rfl, rfl⟩ rfl rfl (by decide)

/-- A council and a schema-mismatched parsed value used by the C1 theorems. -/
def c1Council : CouncilValue :=
  ⟨some [⟨some "Ava", some "Analyst", some "Neutral", some "AA"⟩]⟩

/-- A well-formed JSON value that does not match the SimulationOutput schema:
no synthesis, no black_swan_alert, and an empty scenario list. -/
def c1MismatchSim : SimValue := ⟨some [], none, none⟩

/-- A SIMULATING state with no current simulation. -/
def c1State : SessionState :=
  ⟨Stage.SIMULATING, [seedEntry "ctx"], some c1Council, none⟩

/-- C1 counterexample: a schema-mismatched (but well-formed JSON) response is
NOT caught at the gateway boundary - run_simulation returns the unvalidated
value (not None) and reports nothing; the stage block then stores it as the
current simulation and aborts later with an uncaught KeyError on the missing
synthesis key, with the bad value still stored (so the next run does not even
retry the call). -/
theorem c1_schema_mismatch_not_caught :
    run_simulation "ctx" (some c1Council) false false
        (GatewayResponse.json c1MismatchSim) =
      Except.ok ⟨some c1MismatchSim, [],
        simulationPrompt "ctx" "- Ava (Analyst): Neutral" (chaosPromptStr false),
        simulationInputs
          (simulationPrompt "ctx" "- Ava (Analyst): Neutral" (chaosPromptStr false))
          false⟩ ∧
    some c1MismatchSim ≠ (none : Option SimValue) ∧
    (simulatingBlockCore c1State false false
      (GatewayResponse.json c1MismatchSim)).state.simulation = some c1MismatchSim ∧
    (simulatingBlockCore c1State false false
      (GatewayResponse.json c1MismatchSim)).reported = [] ∧
    (simulatingBlockCore c1State false false
      (GatewayResponse.json c1MismatchSim)).scriptError =
      some (PyErr.keyError "synthesis") :=
  ⟨rfl, by simp, rfl, rfl, rfl⟩

/-- C1 amended: for every simulation call that fails with an exception inside
the try block (backend error or malformed JSON), the failure is caught there
and reported via st.error, run_simulation returns None, and the session state
is fully preserved: the stage stays SIMULATING, history and council are
unmodified, and the simulation stays None so the next evaluation of the stage
retries the call.  The rest of that same script run aborts with an uncaught
TypeError when it subscripts the absent simulation (scriptError below);
Streamlit displays such an exception without destroying the session state, so
the session itself survives in the state this theorem describes.  A
schema-mismatched well-formed JSON response, by contrast, is not a caught
failure (see the counterexample). -/
theorem c1_simulation_failure_preserves_session (s : SessionState) (c : CouncilValue)
    (l : List AgentEntry) (msg : String) (img : Bool)
    (hstage : s.stage = Stage.SIMULATING)
    (hsim : s.simulation = none)
    (hlast : ∃ e d, s.history.getLast? = some e ∧ e.description = some d)
    (hag : s.agents = some c) (hcl : c.agents = some l)
    (hwf : ∀ a ∈ l, wfAgent a)
    (htitles : ∀ e ∈ s.history, e.title.isSome) :
    (simulatingBlockCore s false img (GatewayResponse.failure msg)).state = s ∧
    (simulatingBlockCore s false img (GatewayResponse.failure msg)).state.stage =
      Stage.SIMULATING ∧
    (simulatingBlockCore s false img (GatewayResponse.failure msg)).reported =
      ["Simulation Error: " ++ msg] ∧
    (simulatingBlockCore s false img (GatewayResponse.failure msg)).scriptError =
      some PyErr.typeError := by
  rcases hlast with ⟨e, d, he, hd⟩
  obtain ⟨desc, hdesc, hrun⟩ :=
    run_simulation_ok d c l img false (GatewayResponse.failure msg) hcl hwf
  have hs2 : ({ stage := s.stage
                history := s.history
                agents := some c
                simulation := none } : SessionState) = s := by
    obtain ⟨sst, shh, sag, ssim⟩ := s
    dsimp only at hsim hag ⊢
    rw [hsim, hag]
  have hdraw : draw_advanced_tree s.history none =
      Except.ok ⟨histNS 0 s.history, histES 0 s.history⟩ := by
    simp [draw_advanced_tree, histLoop_ok_of_wf s.history 0 htitles]
  have hblock : simulatingBlockCore s false img (GatewayResponse.failure msg) =
      ⟨s, ["Simulation Error: " ++ msg], some PyErr.typeError,
        some (simulationPrompt d desc (chaosPromptStr false))⟩ := by
    simp [simulatingBlockCore, he, hd, hsim, pyTruthySimOpt, hag, hrun, gatewayResultOf,
      gatewayReportOf, hs2, afterSim, hdraw]
  rw [hblock]
  exact ⟨rfl, hstage, rfl, rfl⟩

/-- Witness for c1_simulation_failure_preserves_session at a concrete state
and backend failure. -/
theorem c1_simulation_failure_witness :
    (simulatingBlockCore c1State false false (GatewayResponse.failure "boom")).state =
      c1State ∧
    (simulatingBlockCore c1State false false
      (GatewayResponse.failure "boom")).state.stage = Stage.SIMULATING ∧
    (simulatingBlockCore c1State false false
      (GatewayResponse.failure "boom")).reported = ["Simulation Error: " ++ "boom"] ∧
    (simulatingBlockCore c1State false false
      (GatewayResponse.failure "boom")).scriptError = some PyErr.typeError :=
  c1_simulation_failure_preserves_session c1State c1Council
    [⟨some "Ava", some "Analyst", some "Neutral", some "AA"⟩] "boom" false rfl rfl
    ⟨seedEntry "ctx", "ctx", rfl, rfl⟩ rfl rfl (by decide) (by decide)

/-- Witness for c10_phantom_root at a concrete one-scenario simulation. -/
theorem c10_phantom_root_witness :
    ∃ g, draw_advanced_tree []
        (some ⟨some [⟨some "Wild", some "Wild path", some "w1", some 5,
          some "Long Term (5y+)", some "Critical", some 9, some 40, some 30, some "t"⟩],
          some "syn", none⟩) = Except.ok g ∧
      g.edges.length = 1 ∧
      (∀ e ∈ g.edges, e.src = "H_-1") ∧
      (∀ n ∈ g.nodes, n.id ≠ "H_-1") :=
  c10_phantom_root _
    [⟨some "Wild", some "Wild path", some "w1", some 5,
      some "Long Term (5y+)", some "Critical", some 9, some 40, some 30, some "t"⟩]
    rfl (by decide)

end Timefold
